import Mathlib

/-!
Verification of the BABE manual-seal consensus data provider
(`client/consensus/manual-seal/src/consensus/babe.rs`).

The file shallowly embeds the two components of that source file:

* `SlotTimestampProvider`, the mocked slot clock: an `AtomicU64` counter
  advanced by `fetch_add(slot_duration)`, modelled as a structure whose
  counter is a `Nat` reduced modulo `2 ^ 64`;
* `BabeConsensusDataProvider` with its two operations `create_digest` and
  `append_block_import`.

External collaborators (the epoch tree of `sc-consensus-epochs`, the
slot-claiming function of `sc_consensus_babe::authorship`, the SCALE
encoders of the `codec` crate, the runtime call computing the genesis
configuration, and the inherent registration points) are held as pure
oracle fields of environment structures; a fixed environment value models a
run with no intervening epoch-tree mutation.  The `&mut BlockImportParams`
parameter of `append_block_import` is modelled by returning the possibly
updated parameters next to the call result.
-/

namespace SubstrateBabe

/-- Decidable equality on `Except`, so that concrete runs of the embedded
operations can be checked by evaluation. -/
instance {ε α : Type} [DecidableEq ε] [DecidableEq α] : DecidableEq (Except ε α) := fun a b =>
  match a, b with
  | .ok x, .ok y =>
    if h : x = y then isTrue (by rw [h]) else isFalse (by simp [h])
  | .error x, .error y =>
    if h : x = y then isTrue (by rw [h]) else isFalse (by simp [h])
  | .ok _, .error _ => isFalse (by simp)
  | .error _, .ok _ => isFalse (by simp)

/-- The `u64` wrap-around modulus. -/
def u64Mod : Nat := 2 ^ 64

/-- Block header: only the hash (`parent.hash()`) and the number
(`parent.number()`) are consulted by this file. -/
structure Header where
  hash : Nat
  number : Nat
deriving DecidableEq, Repr

/-- Inherent data exchanged with the inherent providers.  `timestamp` is the
entry under the timestamp inherent identifier (written by the slot clock);
`babe_slot` is the entry under the BABE inherent identifier, with `none`
modelling an entry that is absent or cannot be decoded. -/
structure InherentData where
  timestamp : Option Nat := none
  babe_slot : Option Nat := none
deriving DecidableEq, Repr

/-- The manual-seal crate error type, reduced to the variants this file can
surface: a formatted string error, the conversion of
`sp_consensus::Error::InvalidAuthoritiesSet`, and the conversion of an
`sp_inherents::Error`. -/
inductive Error where
  | stringError (msg : String)
  | invalidAuthoritiesSet
  | inherentsError (msg : String)
deriving DecidableEq, Repr

/-- Opaque sr25519 authority identity; the concrete public-key bytes live in
external crates, so identities are carried abstractly. -/
structure AuthorityId where
  raw : String
deriving DecidableEq, Repr

/-- The well-known development identity `Sr25519Keyring::Alice` of the
external `sp_keyring` crate, held as an opaque distinguished constant. -/
def alicePublic : AuthorityId := ⟨"Sr25519Keyring::Alice"⟩

/-- Modelled from the spec: `sc_consensus_babe::Epoch` (external to this
file): a contiguous run of slots sharing one authority set and one
randomness value. -/
structure Epoch where
  epoch_index : Nat
  start_slot : Nat
  duration : Nat
  authorities : List (AuthorityId × Nat)
  randomness : List Nat
deriving DecidableEq, Repr

/-- Modelled from the spec: `sc_consensus_babe::Config` (external to this
file), the genesis consensus configuration fetched once from the runtime:
slot duration, epoch length, genesis authority set and genesis
randomness. -/
structure Config where
  slot_duration : Nat
  epoch_length : Nat
  genesis_authorities : List (AuthorityId × Nat)
  randomness : List Nat
deriving DecidableEq, Repr

/-- Modelled from the spec: `Epoch::genesis(&config, slot)` of
`sc_consensus_babe` (external to this file): epoch zero starting at the
given slot, carrying the genesis authority set and genesis randomness of
`Config`. -/
def Epoch.genesis (config : Config) (slot : Nat) : Epoch :=
  { epoch_index := 0
    start_slot := slot
    duration := config.epoch_length
    authorities := config.genesis_authorities
    randomness := config.randomness }

/-- Modelled from the spec: the opaque epoch-tree handle of
`sc-consensus-epochs` (external to this file): either the not yet imported
genesis epoch for a slot, or a handle to a signaled epoch-tree node. -/
inductive ViableEpochDescriptor where
  | unimportedGenesis (slot : Nat)
  | signaled (handle : Nat)
deriving DecidableEq, Repr

/-- Modelled from the spec: `EpochChanges::viable_epoch` of
`sc-consensus-epochs` (external to this file): resolve a descriptor to an
epoch, synthesizing the genesis epoch through the supplied closure for an
unimported-genesis descriptor (in particular when the epoch tree is empty),
and looking the signaled node up in the tree otherwise. -/
def viable_epoch (epoch_tree : List (Nat × Epoch)) (descriptor : ViableEpochDescriptor)
    (make_genesis : Nat → Epoch) : Option Epoch :=
  match descriptor with
  | .unimportedGenesis slot => some (make_genesis slot)
  | .signaled h => (epoch_tree.find? (fun p => p.1 == h)).map (fun p => p.2)

/-- `sp_consensus_babe::digests::PreDigest` (external type): this file only
constructs the `SecondaryPlain` variant; the others are carried opaquely
from the slot-claiming collaborator. -/
inductive PreDigest where
  | primary (vrfData : List Nat)
  | secondaryPlain (slot_number : Nat) (authority_index : Nat)
  | secondaryVRF (vrfData : List Nat)
deriving DecidableEq, Repr

/-- `sp_consensus_babe::ConsensusLog` (external type): this file only
constructs `NextEpochData` (its `NextEpochDescriptor` payload is flattened
into the constructor arguments). -/
inductive ConsensusLog where
  | nextEpochData (authorities : List (AuthorityId × Nat)) (randomness : List Nat)
  | onDisabled (authority_index : Nat)
deriving DecidableEq, Repr

/-- `BABE_ENGINE_ID`, the four-byte engine identifier `b"BABE"`. -/
def BABE_ENGINE_ID : String := "BABE"

/-- Header digest item: only the two shapes this file emits. -/
inductive DigestItem where
  | preRuntime (engine : String) (data : List Nat)
  | consensus (engine : String) (data : List Nat)
deriving DecidableEq, Repr

/-- `sp_runtime::generic::Digest`: the ordered log list. -/
structure Digest where
  logs : List DigestItem
deriving DecidableEq, Repr

/-- `sc_consensus_babe::INTERMEDIATE_KEY`, the well-known key `b"babe1"`. -/
def INTERMEDIATE_KEY : String := "babe1"

/-- `sc_consensus_babe::BabeIntermediate`: the resolved epoch descriptor
handed to the import pipeline through the side-channel map. -/
structure BabeIntermediate where
  epoch_descriptor : ViableEpochDescriptor
deriving DecidableEq, Repr

/-- `sp_consensus::BlockImportParams`, reduced to what this file touches:
the side-channel `intermediates` map, with every other field bundled
opaquely into `rest`. -/
structure BlockImportParams where
  intermediates : List (String × BabeIntermediate)
  rest : Nat
deriving DecidableEq, Repr

/-- `HashMap::insert` on the intermediates map: bind the key to the value,
dropping any previous binding for it and leaving other keys unchanged. -/
def insertKV (m : List (String × BabeIntermediate)) (k : String) (v : BabeIntermediate) :
    List (String × BabeIntermediate) :=
  (k, v) :: m.filter (fun p => p.1 != k)

/-- The external collaborators consulted by the digest provider, held as
pure oracles: the epoch-tree descendant query and the signaled-node table
(both behind the shared lock), the `authorship::claim_slot` function over
the keystore handle, and the SCALE encoders of the `codec` crate.  A fixed
value of this structure models a run with no intervening epoch-tree
mutation. -/
structure BabeEnv where
  epoch_descriptor_for_child_of : Nat → Nat → Nat → Except String (Option ViableEpochDescriptor)
  epoch_tree : List (Nat × Epoch)
  claim_slot : Nat → Epoch → Nat → Option PreDigest
  encodePreDigest : PreDigest → List Nat
  encodeConsensusLog : ConsensusLog → List Nat

/-- `BabeConsensusDataProvider`: keystore and client are opaque handles; the
shared epoch tree lives in `BabeEnv`. -/
structure BabeConsensusDataProvider where
  keystore : Nat
  client : Nat
  config : Config
deriving Repr

/-- `inherents.babe_inherent_data()`: extract the BABE slot number, failing
with an inherent-data error when the entry is absent or undecodable. -/
def InherentData.babe_inherent_data (inherents : InherentData) : Except Error Nat :=
  match inherents.babe_slot with
  | some slot => .ok slot
  | none => .error (.inherentsError "babe inherent data missing")

/-- The error-message prefix of the descriptor lookup in `create_digest`
(`"failed to fetch epoch_descriptor: {}"`). -/
def create_digest_fetch_error : String := "failed to fetch epoch_descriptor: "

/-- The error-message prefix of the descriptor lookup in
`append_block_import` (`"failed to fetch epoch data: {}"`). -/
def append_block_import_fetch_error : String := "failed to fetch epoch data: "

/-- The epoch-descriptor lookup block that appears verbatim in both
`create_digest` and `append_block_import` (the two copies differ only in
the error-message prefix, passed here as `msg`): the descendant query
anchored at the parent hash and number for the given slot, a query failure
mapped to a formatted string error (`map_err`), and a missing descriptor
mapped to `InvalidAuthoritiesSet` (`ok_or_else`). -/
def fetch_epoch_descriptor (env : BabeEnv) (msg : String) (parent : Header)
    (slot_number : Nat) : Except Error ViableEpochDescriptor :=
  match env.epoch_descriptor_for_child_of parent.hash parent.number slot_number with
  | .error e => .error (.stringError (msg ++ e))
  | .ok none => .error .invalidAuthoritiesSet
  | .ok (some d) => .ok d

/-- The digest-log assembly block of `create_digest`: when
`authorship::claim_slot` yields a predigest, one BABE pre-runtime item
(`CompatibleDigestItem::babe_pre_digest`, i.e. `PreRuntime` under the BABE
engine id with the SCALE-encoded predigest); otherwise the two-item
fallback: a `SecondaryPlain` predigest with authority index 0, plus a
`NextEpochData` consensus log installing the development identity with
weight 1000 and copying the epoch randomness unchanged. -/
def claim_logs (env : BabeEnv) (keystore : Nat) (slot_number : Nat) (epoch : Epoch) :
    List DigestItem :=
  match env.claim_slot slot_number epoch keystore with
  | some predigest =>
    [DigestItem.preRuntime BABE_ENGINE_ID (env.encodePreDigest predigest)]
  | none =>
    let predigest := PreDigest.secondaryPlain slot_number 0
    let authority := (alicePublic, 1000)
    let next_epoch := ConsensusLog.nextEpochData [authority] epoch.randomness
    [DigestItem.preRuntime BABE_ENGINE_ID (env.encodePreDigest predigest),
     DigestItem.consensus BABE_ENGINE_ID (env.encodeConsensusLog next_epoch)]

/-- `create_digest(parent, inherents)`: extract the slot number, resolve the
epoch descriptor through the descendant query, resolve the viable epoch
(synthesizing the genesis epoch from the provider's `Config` when needed),
then assemble the digest logs from the slot-claim attempt.  Each `match` on
an `Except` mirrors a `?` operator of the source. -/
def create_digest (env : BabeEnv) (self : BabeConsensusDataProvider) (parent : Header)
    (inherents : InherentData) : Except Error Digest :=
  match inherents.babe_inherent_data with
  | .error e => .error e
  | .ok slot_number =>
    match fetch_epoch_descriptor env create_digest_fetch_error parent slot_number with
    | .error e => .error e
    | .ok epoch_descriptor =>
      match viable_epoch env.epoch_tree epoch_descriptor
          (fun slot => Epoch.genesis self.config slot) with
      | none => .error .invalidAuthoritiesSet
      | some epoch => .ok { logs := claim_logs env self.keystore slot_number epoch }

/-- `append_block_import(parent, params, inherents)`: re-extract the slot
number and re-resolve the epoch descriptor exactly as in `create_digest`
(only the error-message prefix differs), then insert the
`BabeIntermediate` into the import parameters under `INTERMEDIATE_KEY`.
The `&mut` parameter is modelled by returning the possibly updated
parameters next to the call result; on every error path the parameters come
back unchanged because the source's insert happens after the last `?`. -/
def append_block_import (env : BabeEnv) (self : BabeConsensusDataProvider) (parent : Header)
    (params : BlockImportParams) (inherents : InherentData) :
    Except Error Unit × BlockImportParams :=
  match inherents.babe_inherent_data with
  | .error e => (.error e, params)
  | .ok slot_number =>
    match fetch_epoch_descriptor env append_block_import_fetch_error parent slot_number with
    | .error e => (.error e, params)
    | .ok epoch_descriptor =>
      (.ok (),
       { params with
           intermediates :=
             insertKV params.intermediates INTERMEDIATE_KEY ⟨epoch_descriptor⟩ })

/-- `SlotTimestampProvider`: the mocked slot clock.  `time` is the
`AtomicU64` counter (kept reduced modulo `2 ^ 64`), `slot_duration` the
configured slot duration. -/
structure SlotTimestampProvider where
  time : Nat
  slot_duration : Nat
deriving DecidableEq, Repr

/-- `SlotTimestampProvider::new`: read the wall clock as a signed
millisecond offset from the Unix epoch (`now.duration_since(UNIX_EPOCH)`);
a time before the epoch surfaces the `SystemTimeError` as a string error,
otherwise the counter starts at the offset truncated to 64 bits
(`duration.as_millis() as u64`). -/
def SlotTimestampProvider.new (now_millis : Int) (slot_duration : Nat) :
    Except Error SlotTimestampProvider :=
  if now_millis < 0 then
    .error (.stringError "second time provided was later than self")
  else
    .ok { time := now_millis.toNat % u64Mod, slot_duration }

/-- `provide_inherent_data`: `fetch_add(slot_duration)` returns the
pre-increment counter, which is written under the timestamp inherent
identifier; the stored counter wraps modulo `2 ^ 64`.  The `put_data` call
cannot fail in this model, so the result is the updated inherent data next
to the updated clock. -/
def SlotTimestampProvider.provide_inherent_data (self : SlotTimestampProvider)
    (inherent_data : InherentData) : InherentData × SlotTimestampProvider :=
  let duration := self.time
  ({ inherent_data with timestamp := some duration },
   { self with time := (self.time + self.slot_duration) % u64Mod })

/-- The timestamps written by `n` successive `provide_inherent_data`
calls. -/
def clockOutputs : SlotTimestampProvider → Nat → List Nat
  | _, 0 => []
  | s, n + 1 =>
    let r := s.provide_inherent_data {}
    r.1.timestamp.getD 0 :: clockOutputs r.2 n

/-- Lift an error of an external collaborator into the crate error type
(the `From` conversions used through `?` in `new`). -/
def liftStringError {α : Type} (r : Except String α) : Except Error α :=
  match r with
  | .ok a => .ok a
  | .error e => .error (.stringError e)

/-- Oracles consulted by `BabeConsensusDataProvider::new`: the runtime call
computing the genesis `Config` (`Config::get_or_compute`) and the two
inherent-provider registrations. -/
structure NewEnv where
  get_or_compute : Except String Config
  register_provider : Except String Unit
  register_babe_inherent_data_provider : Except String Unit

/-- `BabeConsensusDataProvider::new`: fetch the config, build the slot
clock from the wall clock and the configured slot duration, register the
clock and the standard BABE inherent provider, and return the provider.
The constructed clock is returned alongside, standing for its hand-off to
the inherent registry. -/
def BabeConsensusDataProvider.new (env : NewEnv) (client keystore : Nat)
    (now_millis : Int) :
    Except Error (BabeConsensusDataProvider × SlotTimestampProvider) :=
  match liftStringError env.get_or_compute with
  | .error e => .error e
  | .ok config =>
    match SlotTimestampProvider.new now_millis config.slot_duration with
    | .error e => .error e
    | .ok timestamp_provider =>
      match liftStringError env.register_provider with
      | .error e => .error e
      | .ok _ =>
        match liftStringError env.register_babe_inherent_data_provider with
        | .error e => .error e
        | .ok _ => .ok ({ config, client, keystore }, timestamp_provider)

/-! ## Clock lemmas -/

/-- Unfolding one `provide_inherent_data` step of the clock run. -/
theorem clockOutputs_succ (s : SlotTimestampProvider) (n : Nat) :
    clockOutputs s (n + 1) =
      s.time :: clockOutputs ⟨(s.time + s.slot_duration) % u64Mod, s.slot_duration⟩ n := rfl

theorem u64Mod_pos : 0 < u64Mod := by decide

/-- Closed form of the clock run: the `k`-th returned timestamp is
`(t0 + k * d) % 2 ^ 64`. -/
theorem clockOutputs_eq_map (t0 d n : Nat) (ht : t0 < u64Mod) :
    clockOutputs ⟨t0, d⟩ n = (List.range n).map (fun k => (t0 + k * d) % u64Mod) := by
  induction n generalizing t0 with
  | zero => rfl
  | succ m ih =>
    rw [clockOutputs_succ]
    have ht' : (t0 + d) % u64Mod < u64Mod := Nat.mod_lt _ u64Mod_pos
    rw [ih ((t0 + d) % u64Mod) ht']
    rw [List.range_succ_eq_map, List.map_cons, List.map_map]
    refine List.cons_eq_cons.mpr ⟨?_, ?_⟩
    · simpa using (Nat.mod_eq_of_lt ht).symm
    · apply List.map_congr_left
      intro k _
      show ((t0 + d) % u64Mod + k * d) % u64Mod = (t0 + Nat.succ k * d) % u64Mod
      rw [Nat.mod_add_mod, Nat.succ_mul]
      ring_nf

/-- When the counter never wraps across the run, the modulus drops out of
the closed form. -/
theorem clockOutputs_eq_map_of_no_wrap (t0 d n : Nat) (h : t0 + (n - 1) * d < u64Mod) :
    clockOutputs ⟨t0, d⟩ n = (List.range n).map (fun k => t0 + k * d) := by
  have ht : t0 < u64Mod := lt_of_le_of_lt (Nat.le_add_right _ _) h
  rw [clockOutputs_eq_map t0 d n ht]
  apply List.map_congr_left
  intro k hk
  have hk' : k ≤ n - 1 := by
    have := List.mem_range.mp hk
    omega
  have hlt : t0 + k * d < u64Mod :=
    lt_of_le_of_lt (Nat.add_le_add_left (Nat.mul_le_mul hk' (le_refl d)) t0) h
  exact Nat.mod_eq_of_lt hlt

/-- Without a wrap and with a positive slot duration, the run is strictly
increasing. -/
theorem clockOutputs_pairwise_lt (t0 d n : Nat) (h : t0 + (n - 1) * d < u64Mod)
    (hd : 0 < d) : (clockOutputs ⟨t0, d⟩ n).Pairwise (· < ·) := by
  rw [clockOutputs_eq_map_of_no_wrap t0 d n h]
  refine List.Pairwise.map _ ?_ (List.pairwise_lt_range n)
  intro a b hab
  exact Nat.add_lt_add_left (Nat.mul_lt_mul_of_lt_of_le hab (le_refl d) hd) t0

/-- Without a wrap, each returned timestamp exceeds its predecessor by
exactly the slot duration. -/
theorem clockOutputs_chain_step (t0 d n : Nat) (h : t0 + (n - 1) * d < u64Mod) :
    (clockOutputs ⟨t0, d⟩ n).Chain' (fun a b => b = a + d) := by
  rw [clockOutputs_eq_map_of_no_wrap t0 d n h]
  rw [List.chain'_map]
  cases n with
  | zero => simp
  | succ m =>
    rw [List.chain'_range_succ]
    intro i _
    rw [Nat.succ_mul]
    ring

/-- A zero slot duration repeats the first timestamp. -/
theorem clock_zero_duration_not_pairwise (t0 n : Nat) (ht : t0 < u64Mod) :
    ¬ (clockOutputs ⟨t0, 0⟩ (n + 2)).Pairwise (· < ·) := by
  intro hp
  rw [clockOutputs_succ, clockOutputs_succ] at hp
  have h2 : (t0 + 0) % u64Mod = t0 := by
    rw [Nat.add_zero, Nat.mod_eq_of_lt ht]
  rw [h2] at hp
  have := (List.pairwise_cons.mp hp).1 t0 (List.mem_cons_self _ _)
  exact lt_irrefl t0 this

/-- A wrap of the 64-bit counter produces an adjacent decrease, so the run
is not strictly increasing. -/
theorem clock_wrap_not_pairwise (d : Nat) (hdM : d < u64Mod) :
    ∀ (n t0 : Nat), t0 < u64Mod → u64Mod ≤ t0 + (n + 1) * d →
      ¬ (clockOutputs ⟨t0, d⟩ (n + 2)).Pairwise (· < ·) := by
  intro n
  induction n with
  | zero =>
    intro t0 ht hw hp
    rw [clockOutputs_succ] at hp
    have hw' : u64Mod ≤ t0 + d := by simpa using hw
    have hsub : (t0 + d) % u64Mod = t0 + d - u64Mod := by
      rw [Nat.mod_eq_sub_mod hw', Nat.mod_eq_of_lt (by omega)]
    have hlt : (t0 + d) % u64Mod < t0 := by omega
    have := (List.pairwise_cons.mp hp).1 ((t0 + d) % u64Mod) ?_
    · exact absurd this (not_lt.mpr (le_of_lt hlt))
    · rw [clockOutputs_succ]
      exact List.mem_cons_self _ _
  | succ m ih =>
    intro t0 ht hw hp
    by_cases hcase : t0 + d < u64Mod
    · have hmod : (t0 + d) % u64Mod = t0 + d := Nat.mod_eq_of_lt hcase
      rw [clockOutputs_succ, hmod] at hp
      have htail := (List.pairwise_cons.mp hp).2
      refine ih (t0 + d) hcase ?_ htail
      have : t0 + (m + 1 + 1) * d = t0 + d + (m + 1) * d := by ring
      omega
    · push_neg at hcase
      rw [clockOutputs_succ] at hp
      have hsub : (t0 + d) % u64Mod = t0 + d - u64Mod := by
        rw [Nat.mod_eq_sub_mod hcase, Nat.mod_eq_of_lt (by omega)]
      have hlt : (t0 + d) % u64Mod < t0 := by omega
      have := (List.pairwise_cons.mp hp).1 ((t0 + d) % u64Mod) ?_
      · exact absurd this (not_lt.mpr (le_of_lt hlt))
      · rw [clockOutputs_succ]
        exact List.mem_cons_self _ _

/-! ## Claim theorems: the slot clock -/

/-- C1 (counterexample): the clock counter is a wrapping `u64`, so the claim
"with slot duration 6000 and initial counter T0 the second call returns
T0 + 6000, and the returned values are strictly increasing" fails at the
concrete initial counter `2 ^ 64 - 3000`: the second call returns `3000`. -/
theorem slot_clock_monotonic_counterexample :
    clockOutputs ⟨u64Mod - 3000, 6000⟩ 2 = [u64Mod - 3000, 3000] ∧
    ¬ (clockOutputs ⟨u64Mod - 3000, 6000⟩ 2).Pairwise (· < ·) ∧
    clockOutputs ⟨u64Mod - 3000, 6000⟩ 2 ≠ [u64Mod - 3000, u64Mod - 3000 + 6000] := by
  refine ⟨by decide, ?_, by decide⟩
  intro hp
  have := (List.pairwise_cons.mp (by exact hp)).1 3000 (by decide)
  exact absurd this (by decide)

/-- C1 (amended): as long as the 64-bit counter does not wrap across the
run (`t0 + (n - 1) * d < 2 ^ 64`) and the slot duration is positive, the
`n` timestamps returned by successive `provide_inherent_data` calls are
`t0, t0 + d, t0 + 2 * d, ...`: strictly increasing by exactly the
configured slot duration each call, no two of them equal; concretely, with
slot duration 6000 the first three calls return `t0`, `t0 + 6000`,
`t0 + 12000`. -/
theorem slot_clock_monotonic_amended (t0 d n : Nat)
    (hwrap : t0 + (n - 1) * d < u64Mod) (hd : 0 < d) :
    clockOutputs ⟨t0, d⟩ n = (List.range n).map (fun k => t0 + k * d) ∧
    (clockOutputs ⟨t0, d⟩ n).Chain' (fun a b => b = a + d) ∧
    (clockOutputs ⟨t0, d⟩ n).Pairwise (· < ·) ∧
    (d = 6000 → n = 3 → clockOutputs ⟨t0, d⟩ n = [t0, t0 + 6000, t0 + 12000]) := by
  refine ⟨clockOutputs_eq_map_of_no_wrap t0 d n hwrap,
    clockOutputs_chain_step t0 d n hwrap,
    clockOutputs_pairwise_lt t0 d n hwrap hd, ?_⟩
  intro hd6 hn3
  subst hd6; subst hn3
  rw [clockOutputs_eq_map_of_no_wrap t0 6000 3 hwrap]
  norm_num [List.range_succ]

theorem slot_clock_monotonic_amended_witness :
    clockOutputs ⟨100, 6000⟩ 3 = [100, 6100, 12100] := by
  have h := (slot_clock_monotonic_amended 100 6000 3 (by decide) (by decide)).2.2.2 rfl rfl
  norm_num at h
  exact h

/-- C9: the clock's arithmetic is modulo `2 ^ 64`: `new` truncates the
wall-clock millisecond offset to 64 bits, each `provide_inherent_data` call
returns the pre-increment counter and stores
`(previous + slot_duration) % 2 ^ 64`, and a run of at least two calls is
strictly increasing exactly when the slot duration is non-zero and no
64-bit wrap-around occurs across the run. -/
theorem slot_clock_u64_semantics :
    (∀ (now_millis : Int) (d : Nat) (s : SlotTimestampProvider),
       SlotTimestampProvider.new now_millis d = .ok s ↔
         0 ≤ now_millis ∧ s = ⟨now_millis.toNat % u64Mod, d⟩) ∧
    (∀ (s : SlotTimestampProvider) (inherent_data : InherentData),
       s.provide_inherent_data inherent_data =
         ({ inherent_data with timestamp := some s.time },
          ⟨(s.time + s.slot_duration) % u64Mod, s.slot_duration⟩)) ∧
    (∀ t0 d n : Nat, t0 < u64Mod → d < u64Mod → 2 ≤ n →
       ((clockOutputs ⟨t0, d⟩ n).Pairwise (· < ·) ↔
         0 < d ∧ t0 + (n - 1) * d < u64Mod)) := by
  refine ⟨?_, ?_, ?_⟩
  · intro now_millis d s
    unfold SlotTimestampProvider.new
    by_cases hneg : now_millis < 0
    · rw [if_pos hneg]
      constructor
      · intro h
        exact absurd h (by simp)
      · intro ⟨h0, _⟩
        exact absurd hneg (not_lt.mpr h0)
    · rw [if_neg hneg]
      push_neg at hneg
      constructor
      · intro h
        refine ⟨hneg, ?_⟩
        cases h
        rfl
      · intro ⟨_, hs⟩
        rw [hs]
  · intro s inherent_data
    rfl
  · intro t0 d n ht hdM hn
    constructor
    · intro hp
      have hd : 0 < d := by
        rcases Nat.eq_zero_or_pos d with hd0 | hd0
        · subst hd0
          obtain ⟨m, rfl⟩ : ∃ m, n = m + 2 := ⟨n - 2, by omega⟩
          exact absurd hp (clock_zero_duration_not_pairwise t0 m ht)
        · exact hd0
      refine ⟨hd, ?_⟩
      by_contra hw
      push_neg at hw
      obtain ⟨m, rfl⟩ : ∃ m, n = m + 2 := ⟨n - 2, by omega⟩
      have hw' : u64Mod ≤ t0 + (m + 1) * d := by
        have : m + 2 - 1 = m + 1 := rfl
        rwa [this] at hw
      exact clock_wrap_not_pairwise d hdM m t0 ht hw' hp
    · intro ⟨hd, hw⟩
      exact clockOutputs_pairwise_lt t0 d n hw hd

theorem slot_clock_u64_semantics_witness :
    (clockOutputs ⟨10, 5⟩ 3).Pairwise (· < ·) ↔ 0 < 5 ∧ 10 + (3 - 1) * 5 < u64Mod :=
  slot_clock_u64_semantics.2.2 10 5 3 (by decide) (by decide) (by decide)

/-- C10 (counterexample): the claim says the counter starts at the current
time in milliseconds, but `as_millis() as u64` truncates: at a wall-clock
offset of `2 ^ 64` milliseconds, construction succeeds with the counter at
`0`, not at `2 ^ 64`. -/
theorem clock_new_counterexample :
    SlotTimestampProvider.new ((2 : Int) ^ 64) 6000 = .ok ⟨0, 6000⟩ ∧
    (0 : Nat) ≠ 2 ^ 64 := by
  constructor
  · decide
  · decide

/-- C10 (amended): construction of the slot clock returns an error exactly
when the wall clock is earlier than the Unix epoch, and otherwise succeeds
with the counter initialized to the current millisecond offset truncated to
64 bits; `BabeConsensusDataProvider::new` propagates that error (once the
config fetch has succeeded) and, on the success path, hands the configured
slot duration to the clock. -/
theorem clock_new_amended :
    (∀ (now : Int) (d : Nat), now < 0 →
       SlotTimestampProvider.new now d =
         .error (.stringError "second time provided was later than self")) ∧
    (∀ (now : Int) (d : Nat), 0 ≤ now →
       SlotTimestampProvider.new now d = .ok ⟨now.toNat % u64Mod, d⟩) ∧
    (∀ (env : NewEnv) (client keystore : Nat) (now : Int) (config : Config),
       env.get_or_compute = .ok config → now < 0 →
       BabeConsensusDataProvider.new env client keystore now =
         .error (.stringError "second time provided was later than self")) ∧
    (∀ (env : NewEnv) (client keystore : Nat) (now : Int) (config : Config),
       env.get_or_compute = .ok config →
       env.register_provider = .ok () →
       env.register_babe_inherent_data_provider = .ok () →
       0 ≤ now →
       BabeConsensusDataProvider.new env client keystore now =
         .ok ({ config := config, client := client, keystore := keystore },
              ⟨now.toNat % u64Mod, config.slot_duration⟩)) := by
  have hnew_err : ∀ (now : Int) (d : Nat), now < 0 →
      SlotTimestampProvider.new now d =
        .error (.stringError "second time provided was later than self") := by
    intro now d h
    unfold SlotTimestampProvider.new
    rw [if_pos h]
  have hnew_ok : ∀ (now : Int) (d : Nat), 0 ≤ now →
      SlotTimestampProvider.new now d = .ok ⟨now.toNat % u64Mod, d⟩ := by
    intro now d h
    unfold SlotTimestampProvider.new
    rw [if_neg (not_lt.mpr h)]
  refine ⟨hnew_err, hnew_ok, ?_, ?_⟩
  · intro env client keystore now config hcfg hneg
    simp only [BabeConsensusDataProvider.new, hcfg, liftStringError,
      hnew_err now config.slot_duration hneg]
  · intro env client keystore now config hcfg hr1 hr2 hpos
    simp only [BabeConsensusDataProvider.new, hcfg, hr1, hr2, liftStringError,
      hnew_ok now config.slot_duration hpos]

theorem clock_new_amended_witness :
    SlotTimestampProvider.new (1234 : Int) 6000 = .ok ⟨Int.toNat 1234 % u64Mod, 6000⟩ :=
  clock_new_amended.2.1 1234 6000 (by decide)

/-! ## Digest-provider lemmas and claim theorems -/

/-- Unfolding `create_digest` once the slot number has been extracted. -/
theorem create_digest_eq (env : BabeEnv) (self : BabeConsensusDataProvider)
    (parent : Header) (inherents : InherentData) (slot : Nat)
    (hs : inherents.babe_slot = some slot) :
    create_digest env self parent inherents =
      match fetch_epoch_descriptor env create_digest_fetch_error parent slot with
      | .error e => .error e
      | .ok epoch_descriptor =>
        match viable_epoch env.epoch_tree epoch_descriptor
            (fun s => Epoch.genesis self.config s) with
        | none => .error .invalidAuthoritiesSet
        | some epoch => .ok { logs := claim_logs env self.keystore slot epoch } := by
  simp only [create_digest, InherentData.babe_inherent_data, hs]

/-- C2: a successful `create_digest` never returns an empty log list: the
resolved slot, descriptor and epoch exist, a successful slot claim yields
exactly the one pre-runtime entry, and the log list has exactly two entries
if and only if the fallback path was taken (the claim returned nothing). -/
theorem create_digest_log_count (env : BabeEnv) (self : BabeConsensusDataProvider)
    (parent : Header) (inherents : InherentData) (dg : Digest)
    (h : create_digest env self parent inherents = .ok dg) :
    dg.logs ≠ [] ∧
    ∃ slot d epoch,
      inherents.babe_slot = some slot ∧
      fetch_epoch_descriptor env create_digest_fetch_error parent slot = .ok d ∧
      viable_epoch env.epoch_tree d (fun s => Epoch.genesis self.config s) = some epoch ∧
      (∀ p, env.claim_slot slot epoch self.keystore = some p →
        dg.logs = [DigestItem.preRuntime BABE_ENGINE_ID (env.encodePreDigest p)]) ∧
      (dg.logs.length = 2 ↔ env.claim_slot slot epoch self.keystore = none) := by
  cases hs : inherents.babe_slot with
  | none =>
    simp only [create_digest, InherentData.babe_inherent_data, hs] at h
    simp at h
  | some slot =>
    rw [create_digest_eq env self parent inherents slot hs] at h
    cases hq : fetch_epoch_descriptor env create_digest_fetch_error parent slot with
    | error e => simp only [hq] at h; simp at h
    | ok d =>
      simp only [hq] at h
      cases hv : viable_epoch env.epoch_tree d (fun s => Epoch.genesis self.config s) with
      | none => simp only [hv] at h; simp at h
      | some epoch =>
        simp only [hv] at h
        injection h with h
        subst h
        refine ⟨?_, slot, d, epoch, rfl, hq, hv, ?_, ?_⟩
        · cases hc : env.claim_slot slot epoch self.keystore <;> simp [claim_logs, hc]
        · intro p hp
          simp [claim_logs, hp]
        · cases hc : env.claim_slot slot epoch self.keystore <;> simp [claim_logs, hc]

/-- C3: when the slot claim returns nothing, the digest is exactly the
`SecondaryPlain` predigest for the extracted slot with authority index 0,
followed by a `NextEpochData` consensus log under the BABE engine id whose
authority list is exactly the development identity with weight 1000 and
whose randomness is the current epoch's randomness unchanged. -/
theorem create_digest_fallback_exact (env : BabeEnv) (self : BabeConsensusDataProvider)
    (parent : Header) (inherents : InherentData) (slot : Nat)
    (d : ViableEpochDescriptor) (epoch : Epoch)
    (hs : inherents.babe_slot = some slot)
    (hq : fetch_epoch_descriptor env create_digest_fetch_error parent slot = .ok d)
    (hv : viable_epoch env.epoch_tree d (fun s => Epoch.genesis self.config s) = some epoch)
    (hc : env.claim_slot slot epoch self.keystore = none) :
    create_digest env self parent inherents =
      .ok { logs := [
        DigestItem.preRuntime BABE_ENGINE_ID
          (env.encodePreDigest (PreDigest.secondaryPlain slot 0)),
        DigestItem.consensus BABE_ENGINE_ID
          (env.encodeConsensusLog
            (ConsensusLog.nextEpochData [(alicePublic, 1000)] epoch.randomness))] } := by
  rw [create_digest_eq env self parent inherents slot hs]
  simp only [hq, hv, claim_logs, hc]

/-- C4: with a fixed environment (no intervening epoch-tree mutation) and
fixed parent and inherents, the descriptor-resolution step of
`create_digest` and the one of `append_block_import` yield the same
descriptor, `append_block_import` inserts exactly that descriptor, and
`create_digest`'s outcome is determined by that same descriptor. -/
theorem descriptor_resolution_consistent (env : BabeEnv)
    (self : BabeConsensusDataProvider) (parent : Header) (inherents : InherentData)
    (params : BlockImportParams) (slot : Nat) (d : ViableEpochDescriptor)
    (hs : inherents.babe_slot = some slot)
    (hq : fetch_epoch_descriptor env create_digest_fetch_error parent slot = .ok d) :
    fetch_epoch_descriptor env append_block_import_fetch_error parent slot = .ok d ∧
    append_block_import env self parent params inherents =
      (.ok (), { params with intermediates :=
        (insertKV params.intermediates INTERMEDIATE_KEY ⟨d⟩) }) ∧
    create_digest env self parent inherents =
      (match viable_epoch env.epoch_tree d (fun s => Epoch.genesis self.config s) with
       | none => .error .invalidAuthoritiesSet
       | some epoch => .ok { logs := claim_logs env self.keystore slot epoch }) := by
  have hq2 : fetch_epoch_descriptor env append_block_import_fetch_error parent slot = .ok d := by
    cases henv : env.epoch_descriptor_for_child_of parent.hash parent.number slot with
    | error e => simp only [fetch_epoch_descriptor, henv] at hq; simp at hq
    | ok o =>
      cases o with
      | none => simp only [fetch_epoch_descriptor, henv] at hq; simp at hq
      | some d2 =>
        simp only [fetch_epoch_descriptor, henv] at hq ⊢
        exact hq
  refine ⟨hq2, ?_, ?_⟩
  · simp only [append_block_import, InherentData.babe_inherent_data, hs, hq2]
  · rw [create_digest_eq env self parent inherents slot hs, hq]

/-- C5: when the epoch-tree query returns no descriptor, both operations
fail with `InvalidAuthoritiesSet`, `create_digest` produces no digest, and
`append_block_import` leaves the import parameters unchanged (no
intermediate is inserted on the error path). -/
theorem no_descriptor_invalid_authorities (env : BabeEnv)
    (self : BabeConsensusDataProvider) (parent : Header)
    (params : BlockImportParams) (inherents : InherentData) (slot : Nat)
    (hs : inherents.babe_slot = some slot)
    (hq : env.epoch_descriptor_for_child_of parent.hash parent.number slot = .ok none) :
    create_digest env self parent inherents = .error .invalidAuthoritiesSet ∧
    append_block_import env self parent params inherents =
      (.error .invalidAuthoritiesSet, params) := by
  have hf : ∀ msg, fetch_epoch_descriptor env msg parent slot =
      .error .invalidAuthoritiesSet := by
    intro msg
    simp only [fetch_epoch_descriptor, hq]
  constructor
  · rw [create_digest_eq env self parent inherents slot hs, hf]
  · simp only [append_block_import, InherentData.babe_inherent_data, hs, hf]

/-- C6: epoch resolution synthesizes epoch zero from the genesis `Config`
for the unimported-genesis descriptor, in particular over an empty epoch
tree (so emptiness is not an error), and — once a descriptor has been
found — `create_digest` fails with `InvalidAuthoritiesSet` exactly when no
viable epoch can be found. -/
theorem genesis_bootstrap :
    (∀ (config : Config) (slot : Nat),
       viable_epoch [] (.unimportedGenesis slot) (fun s => Epoch.genesis config s) =
         some (Epoch.genesis config slot) ∧
       (Epoch.genesis config slot).epoch_index = 0) ∧
    (∀ (env : BabeEnv) (self : BabeConsensusDataProvider) (parent : Header)
       (inherents : InherentData) (slot : Nat) (d : ViableEpochDescriptor),
       inherents.babe_slot = some slot →
       fetch_epoch_descriptor env create_digest_fetch_error parent slot = .ok d →
       (create_digest env self parent inherents = .error .invalidAuthoritiesSet ↔
         viable_epoch env.epoch_tree d (fun s => Epoch.genesis self.config s) = none)) := by
  constructor
  · intro config slot
    exact ⟨rfl, rfl⟩
  · intro env self parent inherents slot d hs hq
    rw [create_digest_eq env self parent inherents slot hs, hq]
    cases hv : viable_epoch env.epoch_tree d (fun s => Epoch.genesis self.config s) with
    | none => simp [hv]
    | some epoch => simp [hv]

/-- C7: when the BABE slot number cannot be extracted from the inherent
data, both operations fail with the inherent-data error — a constant
independent of the epoch tree, so the failure happens before any epoch
lookup — and the import parameters come back unchanged. -/
theorem missing_inherent_data_error (env : BabeEnv)
    (self : BabeConsensusDataProvider) (parent : Header)
    (params : BlockImportParams) (inherents : InherentData)
    (hs : inherents.babe_slot = none) :
    create_digest env self parent inherents =
      .error (.inherentsError "babe inherent data missing") ∧
    append_block_import env self parent params inherents =
      (.error (.inherentsError "babe inherent data missing"), params) := by
  constructor
  · simp only [create_digest, InherentData.babe_inherent_data, hs]
  · simp only [append_block_import, InherentData.babe_inherent_data, hs]

/-- C8: the provider's operations are pure functions of their inputs, and
the only mutation `append_block_import` performs is the insertion of the
resolved descriptor under the fixed `INTERMEDIATE_KEY`: the opaque rest of
the import parameters is always unchanged, an error leaves the parameters
untouched, and success changes exactly the intermediates map. -/
theorem append_block_import_frame (env : BabeEnv)
    (self : BabeConsensusDataProvider) (parent : Header)
    (params : BlockImportParams) (inherents : InherentData) :
    ((append_block_import env self parent params inherents).2.rest = params.rest) ∧
    (∀ e, (append_block_import env self parent params inherents).1 = .error e →
       (append_block_import env self parent params inherents).2 = params) ∧
    (∀ u : Unit, (append_block_import env self parent params inherents).1 = .ok u →
       ∃ d, (append_block_import env self parent params inherents).2 =
         { params with intermediates :=
             (insertKV params.intermediates INTERMEDIATE_KEY ⟨d⟩) }) := by
  cases hs : inherents.babe_slot with
  | none =>
    have he : append_block_import env self parent params inherents =
        (.error (.inherentsError "babe inherent data missing"), params) := by
      simp only [append_block_import, InherentData.babe_inherent_data, hs]
    rw [he]
    exact ⟨rfl, fun _ _ => rfl, fun u hu => by simp at hu⟩
  | some slot =>
    cases hq : fetch_epoch_descriptor env append_block_import_fetch_error parent slot with
    | error e =>
      have he : append_block_import env self parent params inherents = (.error e, params) := by
        simp only [append_block_import, InherentData.babe_inherent_data, hs, hq]
      rw [he]
      exact ⟨rfl, fun _ _ => rfl, fun u hu => by simp at hu⟩
    | ok d =>
      have he : append_block_import env self parent params inherents =
          (.ok (), { params with intermediates :=
            (insertKV params.intermediates INTERMEDIATE_KEY ⟨d⟩) }) := by
        simp only [append_block_import, InherentData.babe_inherent_data, hs, hq]
      rw [he]
      exact ⟨rfl, fun e he2 => by simp at he2, fun u _ => ⟨d, rfl⟩⟩

/-! ## Concrete sample runs -/

/-- A concrete genesis configuration for sample runs. -/
def sampleConfig : Config :=
  { slot_duration := 6000
    epoch_length := 200
    genesis_authorities := [(alicePublic, 1000)]
    randomness := [1, 2] }

/-- A concrete provider for sample runs. -/
def sampleProvider : BabeConsensusDataProvider :=
  { keystore := 0, client := 0, config := sampleConfig }

/-- A concrete signaled epoch for sample runs. -/
def sampleEpoch : Epoch :=
  { epoch_index := 1
    start_slot := 7
    duration := 200
    authorities := [(alicePublic, 1000)]
    randomness := [9] }

/-- A concrete environment: the descendant query finds the signaled node 5,
the tree holds `sampleEpoch` there, the keystore claims no slot, and the
encoders are simple executable stand-ins. -/
def sampleEnv : BabeEnv :=
  { epoch_descriptor_for_child_of := fun _ _ _ => .ok (some (.signaled 5))
    epoch_tree := [(5, sampleEpoch)]
    claim_slot := fun _ _ _ => none
    encodePreDigest := fun p =>
      match p with
      | .primary v => 0 :: v
      | .secondaryPlain s i => [1, s, i]
      | .secondaryVRF v => 2 :: v
    encodeConsensusLog := fun l =>
      match l with
      | .nextEpochData auths rand => 1 :: auths.length :: rand
      | .onDisabled i => [2, i] }

/-- The sample environment with a descendant query that finds no
descriptor. -/
def sampleEnvNoDescriptor : BabeEnv :=
  { sampleEnv with epoch_descriptor_for_child_of := fun _ _ _ => .ok none }

def sampleHeader : Header := { hash := 11, number := 3 }

def sampleInherents : InherentData := { timestamp := some 0, babe_slot := some 42 }

def sampleInherentsNoSlot : InherentData := { timestamp := some 0, babe_slot := none }

def sampleParams : BlockImportParams := { intermediates := [], rest := 77 }

theorem create_digest_log_count_witness :
    (⟨[DigestItem.preRuntime BABE_ENGINE_ID [1, 42, 0],
       DigestItem.consensus BABE_ENGINE_ID [1, 1, 9]]⟩ : Digest).logs ≠ [] :=
  (create_digest_log_count sampleEnv sampleProvider sampleHeader sampleInherents
    ⟨[DigestItem.preRuntime BABE_ENGINE_ID [1, 42, 0],
      DigestItem.consensus BABE_ENGINE_ID [1, 1, 9]]⟩ (by decide)).1

theorem create_digest_fallback_exact_witness :
    create_digest sampleEnv sampleProvider sampleHeader sampleInherents =
      .ok { logs := [
        DigestItem.preRuntime BABE_ENGINE_ID
          (sampleEnv.encodePreDigest (PreDigest.secondaryPlain 42 0)),
        DigestItem.consensus BABE_ENGINE_ID
          (sampleEnv.encodeConsensusLog
            (ConsensusLog.nextEpochData [(alicePublic, 1000)] sampleEpoch.randomness))] } :=
  create_digest_fallback_exact sampleEnv sampleProvider sampleHeader sampleInherents
    42 (.signaled 5) sampleEpoch (by decide) (by decide) (by decide) (by decide)

theorem descriptor_resolution_consistent_witness :
    append_block_import sampleEnv sampleProvider sampleHeader sampleParams sampleInherents =
      (.ok (), { sampleParams with intermediates :=
        (insertKV sampleParams.intermediates INTERMEDIATE_KEY ⟨.signaled 5⟩) }) :=
  (descriptor_resolution_consistent sampleEnv sampleProvider sampleHeader sampleInherents
    sampleParams 42 (.signaled 5) (by decide) (by decide)).2.1

theorem no_descriptor_invalid_authorities_witness :
    create_digest sampleEnvNoDescriptor sampleProvider sampleHeader sampleInherents =
      .error .invalidAuthoritiesSet :=
  (no_descriptor_invalid_authorities sampleEnvNoDescriptor sampleProvider sampleHeader
    sampleParams sampleInherents 42 (by decide) (by decide)).1

theorem genesis_bootstrap_witness :
    (create_digest sampleEnv sampleProvider sampleHeader sampleInherents =
        .error .invalidAuthoritiesSet ↔
      viable_epoch sampleEnv.epoch_tree (.signaled 5)
        (fun s => Epoch.genesis sampleProvider.config s) = none) :=
  genesis_bootstrap.2 sampleEnv sampleProvider sampleHeader sampleInherents
    42 (.signaled 5) (by decide) (by decide)

theorem missing_inherent_data_error_witness :
    create_digest sampleEnv sampleProvider sampleHeader sampleInherentsNoSlot =
      .error (.inherentsError "babe inherent data missing") :=
  (missing_inherent_data_error sampleEnv sampleProvider sampleHeader
    sampleParams sampleInherentsNoSlot (by decide)).1

theorem append_block_import_frame_witness :
    (append_block_import sampleEnv sampleProvider sampleHeader sampleParams
        sampleInherents).2.rest = sampleParams.rest :=
  (append_block_import_frame sampleEnv sampleProvider sampleHeader sampleParams
    sampleInherents).1

end SubstrateBabe
